import Mathlib

/-!
Shallow embedding of the portfolio status and analytics engine of the
apparttracker backend (src/backend), together with proofs that settle the
claims about it.  Each definition is translated from the JavaScript source
named in its doc comment; dates are modelled as epoch milliseconds (`Int`),
identities as `Nat`, and the storage collaborator as plain Lean lists.
-/

namespace Appart

/-! ## Step model (src/backend/models/Step.js) -/

/-- Entry of `stepSchema.checklist`; only the fields read by the verified
logic are modelled (`item`, `completed`). -/
structure ChecklistItem where
  item : String
  completed : Bool
  deriving Repr, DecidableEq

/-- Step document as consumed by the status machine: `status` is one of
todo, in_progress, completed, cancelled, on_hold; `deadline` models
`dates.deadline` (absent = `none`). -/
structure Step where
  status : String
  checklist : List ChecklistItem
  completionPercentage : Nat
  deadline : Option Int
  deriving Repr, DecidableEq

/-- Virtual `checklistCompletion` (Step.js lines 231-237): 100 for an empty
checklist, otherwise `Math.round(completed / length * 100)`.  The JS
`Math.round` of a nonnegative quotient is `(200 * completed + length) / (2 * length)`
in integer arithmetic. -/
def checklistCompletion (s : Step) : Nat :=
  if s.checklist.length = 0 then 100
  else (200 * (s.checklist.filter (fun i => i.completed)).length + s.checklist.length) /
    (2 * s.checklist.length)

/-- Middleware `stepSchema.pre(save)` (Step.js lines 272-287): when the
checklist or the status was modified, recompute `completionPercentage`
(completed = 100, in_progress = max(checklistCompletion, 10), todo = 0,
other statuses untouched). -/
def stepPreSave (modifiedChecklistOrStatus : Bool) (s : Step) : Step :=
  if modifiedChecklistOrStatus then
    let checklistPercent := checklistCompletion s
    if s.status = "completed" then { s with completionPercentage := 100 }
    else if s.status = "in_progress" then
      { s with completionPercentage := max checklistPercent 10 }
    else if s.status = "todo" then { s with completionPercentage := 0 }
    else s
  else s

/-- Virtual `isOverdue` (Step.js lines 207-212): false when no deadline is
set or the status is completed, otherwise true iff `now` is strictly past
the deadline. -/
def isOverdue (now : Int) (s : Step) : Bool :=
  match s.deadline with
  | none => false
  | some d => if s.status = "completed" then false else decide (d < now)

/-! ## Property progress table (src/backend/routes/properties.js,
`getProgressPercentage`, identical at lines 451-463 and as the schema method
at lines 743-755) -/

/-- Fixed lookup table from Property status to progress percentage; any
string outside the table falls through to 0 (the JS `|| 0`). -/
def getProgressPercentage (status : String) : Nat :=
  if status = "searching" then 10
  else if status = "visiting" then 20
  else if status = "offer_made" then 40
  else if status = "compromis_signed" then 60
  else if status = "loan_pending" then 75
  else if status = "final_signature" then 90
  else if status = "keys_received" then 100
  else if status = "cancelled" then 0
  else 0

/-- Property status enumeration of the schema (properties.js lines 633-637). -/
def propertyStatusEnum : List String :=
  ["searching", "visiting", "offer_made", "compromis_signed", "loan_pending",
   "final_signature", "keys_received", "cancelled"]

/-! ## Property model and query filters -/

/-- Photo subdocument of a Property (properties.js schema lines 615-632);
`uploadedAt` is irrelevant to the verified logic and omitted. -/
structure Photo where
  url : String
  caption : String
  isPrimary : Bool
  deriving Repr, DecidableEq

/-- Property document as consumed by the query filters and the dashboard:
`sharedWith` keeps the user ids of the share entries (`sharedWith[].user`). -/
structure PropertyRec where
  id : Nat
  owner : Nat
  sharedWith : List Nat
  isActive : Bool
  status : String
  photos : List Photo
  deriving Repr, DecidableEq

/-- Base filter of GET /api/properties (routes/properties.js line 138):
`owner: req.user.id, isActive: true`.  The optional query parameters
(status, city, price and surface ranges, search) only add further
conjuncts and are not modelled. -/
def propertiesListFilter (userId : Nat) (p : PropertyRec) : Bool :=
  (p.owner == userId) && p.isActive

/-- Visibility filter used by the dashboard routes (server.js overview
lines 98-105, recent-activity, progress, analytics): owner OR member of
`sharedWith`, and active. -/
def overviewPropertyFilter (userId : Nat) (p : PropertyRec) : Bool :=
  ((p.owner == userId) || p.sharedWith.contains userId) && p.isActive

/-- Union visibility filter written down from the words of the spec
(section 3): a record is visible to its owner and to every user listed in
its share set, and portfolio queries must apply this union together with
the active flag.  Kept separate from the source-derived filters so the two
can be compared. -/
def specPortfolioFilter (userId : Nat) (p : PropertyRec) : Bool :=
  ((p.owner == userId) || p.sharedWith.contains userId) && p.isActive

/-- Result list of GET /api/properties over a storage state `db`
(pagination and sorting aside): `Property.find(filter)` with the base
filter of line 138. -/
def listProperties (userId : Nat) (db : List PropertyRec) : List PropertyRec :=
  db.filter (propertiesListFilter userId)

/-- Overview summary counter `activeProperties` (server.js line 254):
counts fetched properties whose status lies in a French-language list. -/
def summaryActiveProperties (properties : List PropertyRec) : Nat :=
  (properties.filter (fun p =>
    ["recherche", "visite", "negociation", "compromis", "financement"].contains p.status)).length

/-- Overview summary counter `completedPurchases` (server.js line 255):
counts fetched properties with status `cles_remises`. -/
def summaryCompletedPurchases (properties : List PropertyRec) : Nat :=
  (properties.filter (fun p => p.status == "cles_remises")).length

/-- Middleware `propertySchema.pre(save)` (properties.js lines 757-770)
restricted to its effect on the photos array: when photos exist and none
is primary, mark the first; when more than one is primary, set
`isPrimary = (index === 0)` on every photo. -/
def propertyPreSave (photos : List Photo) : List Photo :=
  if 0 < photos.length then
    let primaryPhotos := photos.filter (fun p => p.isPrimary)
    if primaryPhotos.length = 0 then
      match photos with
      | [] => []
      | p :: rest => { p with isPrimary := true } :: rest
    else if 1 < primaryPhotos.length then
      photos.mapIdx (fun i p => { p with isPrimary := i == 0 })
    else photos
  else photos

/-! ## Alert deriver (server.js lines 180-210) -/

/-- Alert record produced by the overview route. -/
structure Alert where
  type : String
  title : String
  message : String
  count : Nat
  priority : String
  deriving Repr, DecidableEq

/-- Alert derivation over the overview counts: overdue steps, then
upcoming steps, then overdue events, each pushed only when the count is
positive, with the exact JS strings. -/
def dashboardAlerts (overdueSteps upcomingSteps overdueEvents : Nat) : List Alert :=
  (if overdueSteps > 0 then
    [{ type := "warning", title := "Étapes en retard",
       message := "Vous avez " ++ toString overdueSteps ++ " étape(s) en retard",
       count := overdueSteps, priority := "high" }]
  else []) ++
  (if upcomingSteps > 0 then
    [{ type := "info", title := "Étapes à venir",
       message := toString upcomingSteps ++ " étape(s) à réaliser dans les 7 prochains jours",
       count := upcomingSteps, priority := "medium" }]
  else []) ++
  (if overdueEvents > 0 then
    [{ type := "error", title := "Événements en retard",
       message := toString overdueEvents ++ " événement(s) non traité(s)",
       count := overdueEvents, priority := "high" }]
  else [])

/-! ## Single-entity reads (error taxonomy) -/

/-- Outcome of a single-entity read: HTTP 404, HTTP 403, or the record. -/
inductive ReadResult (α : Type) where
  | notFound
  | forbidden
  | ok (value : α)
  deriving Repr, DecidableEq

/-- Document record as consumed by GET /api/documents/:id:
`propertyOwner` is the owner of the populated parent property and
`sharedWith` the user ids of the document share entries. -/
structure DocumentRec where
  id : Nat
  propertyOwner : Nat
  sharedWith : List Nat
  deriving Repr, DecidableEq

/-- Calendar event record as consumed by GET /api/calendar/events/:id. -/
structure CalendarEventRec where
  id : Nat
  owner : Nat
  sharedWith : List Nat
  deriving Repr, DecidableEq

/-- GET /api/properties/:id (routes/properties.js lines 205-223): the
visibility union is part of the findOne filter, so a missing id and an
out-of-scope id are both 404. -/
def getPropertyById (userId : Nat) (db : List PropertyRec) (id : Nat) :
    ReadResult PropertyRec :=
  match db.find? (fun p => p.id == id &&
      ((p.owner == userId) || p.sharedWith.contains userId)) with
  | none => ReadResult.notFound
  | some p => ReadResult.ok p

/-- GET /api/documents/:id (document routes lines 931-956 of the
concatenated properties source file): findById, 404 when the id does not
resolve, then an explicit access check that answers 403 when the caller is
neither the property owner nor in the document share set. -/
def getDocumentById (userId : Nat) (db : List DocumentRec) (id : Nat) :
    ReadResult DocumentRec :=
  match db.find? (fun d => d.id == id) with
  | none => ReadResult.notFound
  | some doc =>
    if (doc.propertyOwner == userId) || doc.sharedWith.contains userId then
      ReadResult.ok doc
    else ReadResult.forbidden

/-- GET /api/calendar/events/:id (routes/calendar.js lines 150-175):
findById, 404 when missing, then an owner-or-shared access check that
answers 403 when it fails. -/
def getCalendarEventById (userId : Nat) (db : List CalendarEventRec) (id : Nat) :
    ReadResult CalendarEventRec :=
  match db.find? (fun e => e.id == id) with
  | none => ReadResult.notFound
  | some ev =>
    if (ev.owner == userId) || ev.sharedWith.contains userId then
      ReadResult.ok ev
    else ReadResult.forbidden

/-! ## Cost aggregate (server.js lines 620-637)

The pipeline matches steps on `isActive` and `costs.amount > 0`, unwinds
`costs`, groups by `costs.category` with summed amount and count, and
sorts by total descending.  It therefore reads each raw step document as
carrying a `costs` array of category and amount pairs; note that the Step
schema (Step.js lines 117-131) actually declares `costs` as a single
object with `estimated`, `actual` and `currency` fields, so the pipeline
is modelled on the document shape it presumes. -/

/-- Cost entry as read by the aggregation pipeline. -/
structure CostEntry where
  category : String
  amount : Int
  deriving Repr, DecidableEq

/-- Raw step document as read by the cost aggregation pipeline. -/
structure StepCostsDoc where
  isActive : Bool
  costs : List CostEntry
  deriving Repr, DecidableEq

/-- Output row of the cost aggregate.  The floating point `avgAmount`
reducer is not modelled. -/
structure CostRow where
  category : String
  totalAmount : Int
  count : Nat
  deriving Repr, DecidableEq

/-- Descending order on rows used by the final `$sort totalAmount: -1`. -/
def costRowGE (a b : CostRow) : Prop := b.totalAmount ≤ a.totalAmount

instance : DecidableRel costRowGE := fun a b => Int.decLe b.totalAmount a.totalAmount

instance : IsTotal CostRow costRowGE := ⟨fun a b => le_total b.totalAmount a.totalAmount⟩

instance : IsTrans CostRow costRowGE := ⟨fun _ _ _ hab hbc => le_trans hbc hab⟩

/-- Appends a key if it has not been seen; used to realise the group stage
key set in first-appearance order. -/
def addKey (ks : List String) (k : String) : List String :=
  if ks.contains k then ks else ks ++ [k]

/-- Category keys of the unwound entries in first-appearance order. -/
def costCategories (entries : List CostEntry) : List String :=
  entries.foldl (fun ks e => addKey ks e.category) []

/-- Aggregate `costsByCategory`: `$match` keeps an active step when SOME
entry of its costs array has amount > 0 (the MongoDB array-field
semantics of `costs.amount: $gt 0`); `$unwind` then emits every entry of
each kept step; `$group` sums amounts and counts entries per category;
`$sort` orders rows by total descending. -/
def costsByCategory (db : List StepCostsDoc) : List CostRow :=
  let matched := db.filter (fun d =>
    d.isActive && d.costs.any (fun c => decide (0 < c.amount)))
  let entries := matched.flatMap (fun d => d.costs)
  let rows := (costCategories entries).map (fun k =>
    let es := entries.filter (fun e => e.category == k)
    { category := k, totalAmount := (es.map (fun e => e.amount)).sum,
      count := es.length })
  List.insertionSort costRowGE rows

/-! ## Activity merger (server.js recent-activity, lines 277-409) -/

/-- Step row selected by the recent-activity step query
(`name status updatedAt property category`); `property` is the populated
property title. -/
structure RecentStep where
  name : String
  status : String
  updatedAt : Int
  property : Option String
  category : String
  isActive : Bool
  deriving Repr, DecidableEq

/-- Document row selected by the recent-activity document query. -/
structure RecentDoc where
  name : String
  category : String
  createdAt : Int
  property : Option String
  type : String
  isActive : Bool
  deriving Repr, DecidableEq

/-- Calendar event row selected by the recent-activity event query. -/
structure RecentEvent where
  title : String
  type : String
  createdAt : Int
  property : Option String
  isActive : Bool
  deriving Repr, DecidableEq

/-- Property row selected by the recent-activity property query;
`city` models `address.city` (absent = `none`). -/
structure RecentProp where
  title : String
  status : String
  createdAt : Int
  city : Option String
  isActive : Bool
  deriving Repr, DecidableEq

/-- Normalised activity record pushed onto the feed. -/
structure Activity where
  type : String
  action : String
  title : String
  description : String
  property : Option String
  date : Int
  icon : String
  category : String
  deriving Repr, DecidableEq

/-- Step to activity mapping (server.js lines 342-353). -/
def stepToActivity (s : RecentStep) : Activity :=
  { type := "step", action := "updated",
    title := "Étape mise à jour: " ++ s.name,
    description := "Statut: " ++ s.status,
    property := s.property, date := s.updatedAt,
    icon := "task", category := s.category }

/-- Document to activity mapping (server.js lines 355-366). -/
def docToActivity (d : RecentDoc) : Activity :=
  { type := "document", action := "uploaded",
    title := "Document ajouté: " ++ d.name,
    description := "Catégorie: " ++ d.category,
    property := d.property, date := d.createdAt,
    icon := "document", category := d.category }

/-- Event to activity mapping (server.js lines 368-379). -/
def eventToActivity (e : RecentEvent) : Activity :=
  { type := "event", action := "created",
    title := "Événement créé: " ++ e.title,
    description := "Type: " ++ e.type,
    property := e.property, date := e.createdAt,
    icon := "calendar", category := e.type }

/-- Property to activity mapping (server.js lines 381-392); a missing city
renders as the JS text `undefined`. -/
def propToActivity (p : RecentProp) : Activity :=
  { type := "property", action := "created",
    title := "Nouvelle propriété: " ++ p.title,
    description := "Ville: " ++ (match p.city with | some c => c | none => "undefined"),
    property := some p.title, date := p.createdAt,
    icon := "home", category := p.status }

/-- Descending order on step rows by `updatedAt` (the `sort updatedAt: -1`
of the step query). -/
def stepUpdatedGE (a b : RecentStep) : Prop := b.updatedAt ≤ a.updatedAt

instance : DecidableRel stepUpdatedGE := fun a b => Int.decLe b.updatedAt a.updatedAt

/-- Descending order on document rows by `createdAt`. -/
def docCreatedGE (a b : RecentDoc) : Prop := b.createdAt ≤ a.createdAt

instance : DecidableRel docCreatedGE := fun a b => Int.decLe b.createdAt a.createdAt

/-- Descending order on event rows by `createdAt`. -/
def eventCreatedGE (a b : RecentEvent) : Prop := b.createdAt ≤ a.createdAt

instance : DecidableRel eventCreatedGE := fun a b => Int.decLe b.createdAt a.createdAt

/-- Descending order on property rows by `createdAt`. -/
def propCreatedGE (a b : RecentProp) : Prop := b.createdAt ≤ a.createdAt

instance : DecidableRel propCreatedGE := fun a b => Int.decLe b.createdAt a.createdAt

/-- Descending order on activities by `date`, the comparator of the final
JS `activities.sort((a, b) => new Date(b.date) - new Date(a.date))`. -/
def activityDateGE (a b : Activity) : Prop := b.date ≤ a.date

instance : DecidableRel activityDateGE := fun a b => Int.decLe b.date a.date

instance : IsTotal Activity activityDateGE := ⟨fun a b => le_total b.date a.date⟩

instance : IsTrans Activity activityDateGE := ⟨fun _ _ _ hab hbc => le_trans hbc hab⟩

/-- Candidate list of GET /api/dashboard/recent-activity over already
scoped source rows (the property-id scoping of each query is outside the
merger): each source is filtered to the trailing window (`createdAt` or
`updatedAt` at least `since`) and to active rows, sorted descending on
its own date key, capped at `limit / 4` rows (the JS divides the
requested limit by four before passing it to the per-query limit; the
integer division models the truncation of the fractional part), mapped to
activity records, and the four lists are concatenated in the fixed order
steps, documents, events, properties.  Sorts are modelled with the stable
`List.insertionSort`. -/
def recentActivityCandidates (limit : Nat) (since : Int)
    (steps : List RecentStep) (docs : List RecentDoc)
    (events : List RecentEvent) (props : List RecentProp) : List Activity :=
  let cap := limit / 4
  ((List.insertionSort stepUpdatedGE
    (steps.filter (fun s => s.isActive && decide (since ≤ s.updatedAt)))).take cap).map
      stepToActivity ++
  ((List.insertionSort docCreatedGE
    (docs.filter (fun d => d.isActive && decide (since ≤ d.createdAt)))).take cap).map
      docToActivity ++
  ((List.insertionSort eventCreatedGE
    (events.filter (fun e => e.isActive && decide (since ≤ e.createdAt)))).take cap).map
      eventToActivity ++
  ((List.insertionSort propCreatedGE
    (props.filter (fun p => p.isActive && decide (since ≤ p.createdAt)))).take cap).map
      propToActivity

/-- Final stage of GET /api/dashboard/recent-activity: the concatenated
candidates are stably sorted by date descending and truncated to the
originally requested limit. -/
def recentActivity (limit : Nat) (since : Int)
    (steps : List RecentStep) (docs : List RecentDoc)
    (events : List RecentEvent) (props : List RecentProp) : List Activity :=
  (List.insertionSort activityDateGE
    (recentActivityCandidates limit since steps docs events props)).take limit

/-! ## Concrete instances used by witnesses and counterexamples -/

/-- In-progress step with an empty checklist. -/
def emptyChecklistStep : Step :=
  { status := "in_progress", checklist := [], completionPercentage := 0, deadline := none }

/-- Completed step carrying a deadline strictly in the past. -/
def completedPastDeadlineStep : Step :=
  { status := "completed", checklist := [], completionPercentage := 100, deadline := some 0 }

/-- Cancelled step carrying a deadline strictly in the past. -/
def cancelledPastDeadlineStep : Step :=
  { status := "cancelled", checklist := [], completionPercentage := 0, deadline := some 0 }

/-- Active property owned by user 2 and shared with user 1. -/
def sharedOnlyProperty : PropertyRec :=
  { id := 7, owner := 2, sharedWith := [1], isActive := true, status := "searching",
    photos := [] }

/-- Active property owned by user 1 with an in-enumeration status. -/
def ownedSearchingProperty : PropertyRec :=
  { id := 3, owner := 1, sharedWith := [], isActive := true, status := "searching",
    photos := [] }

/-- Document under a property owned by user 2, not shared with user 1. -/
def foreignDocument : DocumentRec := { id := 5, propertyOwner := 2, sharedWith := [] }

/-- Calendar event owned by user 2, not shared with user 1. -/
def foreignEvent : CalendarEventRec := { id := 6, owner := 2, sharedWith := [] }

/-- Photo list in which two of three photos are marked primary. -/
def twoPrimaryPhotos : List Photo :=
  [{ url := "a", caption := "", isPrimary := false },
   { url := "b", caption := "", isPrimary := true },
   { url := "c", caption := "", isPrimary := true }]

/-- Step document carrying one positive and one zero cost entry in the
same category, as in the claim about the cost aggregate. -/
def notaryCostsDb : List StepCostsDoc :=
  [{ isActive := true,
     costs := [{ category := "notary", amount := 500 },
               { category := "notary", amount := 0 }] }]

/-- Four steps updated on days 1 to 4 (epoch unit = one day here). -/
def windowSteps : List RecentStep :=
  [{ name := "s1", status := "todo", updatedAt := 1, property := none,
     category := "visite", isActive := true },
   { name := "s2", status := "todo", updatedAt := 2, property := none,
     category := "visite", isActive := true },
   { name := "s3", status := "todo", updatedAt := 3, property := none,
     category := "visite", isActive := true },
   { name := "s4", status := "todo", updatedAt := 4, property := none,
     category := "visite", isActive := true }]

/-- Four documents created on days 5 to 8. -/
def windowDocs : List RecentDoc :=
  [{ name := "d1", category := "plan", createdAt := 5, property := none,
     type := "pdf", isActive := true },
   { name := "d2", category := "plan", createdAt := 6, property := none,
     type := "pdf", isActive := true },
   { name := "d3", category := "plan", createdAt := 7, property := none,
     type := "pdf", isActive := true },
   { name := "d4", category := "plan", createdAt := 8, property := none,
     type := "pdf", isActive := true }]

/-- Two events created on days 9 and 10. -/
def windowEvents : List RecentEvent :=
  [{ title := "e1", type := "visite", createdAt := 9, property := none, isActive := true },
   { title := "e2", type := "visite", createdAt := 10, property := none, isActive := true }]

/-- One property created on day 11. -/
def windowProps : List RecentProp :=
  [{ title := "p1", status := "searching", createdAt := 11, city := none,
     isActive := true }]

/-! ## Shared helper lemmas -/

/-- Appending respects subpermutation on both sides. -/
theorem subperm_append_both {α : Type _} {l₁ l₂ r₁ r₂ : List α}
    (h₁ : l₁.Subperm r₁) (h₂ : l₂.Subperm r₂) : (l₁ ++ l₂).Subperm (r₁ ++ r₂) := by
  obtain ⟨m₁, p₁, s₁⟩ := h₁
  obtain ⟨m₂, p₂, s₂⟩ := h₂
  exact ⟨m₁ ++ m₂, p₁.append p₂, s₁.append s₂⟩

/-- Subpermutations of a duplicate-free list are duplicate-free. -/
theorem nodup_of_subperm {α : Type _} {l r : List α}
    (h : l.Subperm r) (hr : r.Nodup) : l.Nodup := by
  obtain ⟨m, p, s⟩ := h
  exact p.nodup_iff.mp (List.Nodup.sublist s hr)

/-- Date of a step activity is the step update time. -/
theorem date_comp_stepToActivity : Activity.date ∘ stepToActivity = RecentStep.updatedAt := rfl

/-- Date of a document activity is the document creation time. -/
theorem date_comp_docToActivity : Activity.date ∘ docToActivity = RecentDoc.createdAt := rfl

/-- Date of an event activity is the event creation time. -/
theorem date_comp_eventToActivity : Activity.date ∘ eventToActivity = RecentEvent.createdAt := rfl

/-- Date of a property activity is the property creation time. -/
theorem date_comp_propToActivity : Activity.date ∘ propToActivity = RecentProp.createdAt := rfl

/-- Mapping with an index function that never marks a photo primary yields
no primary photo. -/
theorem filter_isPrimary_mapIdx_eq_nil :
    ∀ (l : List Photo) (f : Nat → Photo → Photo),
      (∀ i q, (f i q).isPrimary = false) →
      (l.mapIdx f).filter (fun q => q.isPrimary) = []
  | [], _, _ => rfl
  | a :: l, f, hf => by
    rw [List.mapIdx_cons, List.filter_cons]
    simp only [hf 0 a, Bool.false_eq_true, if_false]
    exact filter_isPrimary_mapIdx_eq_nil l (fun i => f (i + 1)) (fun i q => hf (i + 1) q)

/-! ## Claim C1 -/

/-- Claim C1, counterexample: for the concrete in-progress step with an
empty checklist, the recomputed completionPercentage is not 10 (the empty
checklist makes `checklistCompletion` return 100, and `max 100 10 = 100`),
refuting the claim that it equals 10. -/
theorem c1_counterexample :
    (stepPreSave true emptyChecklistStep).completionPercentage ≠ 10 := by decide

/-- Claim C1, amended: for every Step with status in_progress and an empty
checklist, the completionPercentage recomputed by the save middleware
equals 100 (the empty-checklist completion ratio defaults to 100), and in
particular is never 0. -/
theorem c1_in_progress_empty_checklist (s : Step)
    (hst : s.status = "in_progress") (hck : s.checklist = []) :
    (stepPreSave true s).completionPercentage = 100 ∧
    (stepPreSave true s).completionPercentage ≠ 0 := by
  simp [stepPreSave, checklistCompletion, hst, hck]

/-- Claim C1, witness: the amended theorem applied to the concrete
in-progress step with an empty checklist. -/
theorem c1_witness :
    (stepPreSave true emptyChecklistStep).completionPercentage = 100 ∧
    (stepPreSave true emptyChecklistStep).completionPercentage ≠ 0 :=
  c1_in_progress_empty_checklist emptyChecklistStep rfl rfl

/-! ## Claim C2 -/

/-- Claim C2, counterexample: a cancelled step with a deadline strictly in
the past is reported overdue by the `isOverdue` virtual (the source only
excludes status completed), refuting the claim that cancelled steps are
never overdue. -/
theorem c2_counterexample : ¬ (isOverdue 1 cancelledPastDeadlineStep = false) := by decide

/-- Claim C2, amended: for every Step with status completed the derived
`isOverdue` flag is false, even when a deadline is set and strictly in
the past; the cancelled case of the original claim fails on the code. -/
theorem c2_completed_never_overdue (now : Int) (s : Step)
    (h : s.status = "completed") : isOverdue now s = false := by
  cases hd : s.deadline <;> simp [isOverdue, hd, h]

/-- Claim C2, witness: the amended theorem applied to the concrete
completed step with a past deadline, at time 1. -/
theorem c2_witness : isOverdue 1 completedPastDeadlineStep = false :=
  c2_completed_never_overdue 1 completedPastDeadlineStep rfl

/-! ## Claim C4 -/

/-- Claim C4: the progress function returns exactly the table value for
every status in the Property enumeration, and 0 for every string outside
the enumeration. -/
theorem c4_progress_table :
    (getProgressPercentage "searching" = 10 ∧ getProgressPercentage "visiting" = 20 ∧
     getProgressPercentage "offer_made" = 40 ∧ getProgressPercentage "compromis_signed" = 60 ∧
     getProgressPercentage "loan_pending" = 75 ∧ getProgressPercentage "final_signature" = 90 ∧
     getProgressPercentage "keys_received" = 100 ∧ getProgressPercentage "cancelled" = 0) ∧
    ∀ s : String, s ∉ propertyStatusEnum → getProgressPercentage s = 0 := by
  refine ⟨by decide, ?_⟩
  intro s hs
  simp only [propertyStatusEnum, List.mem_cons, List.not_mem_nil, or_false, not_or] at hs
  obtain ⟨h1, h2, h3, h4, h5, h6, h7, h8⟩ := hs
  simp [getProgressPercentage, h1, h2, h3, h4, h5, h6, h7, h8]

/-- Claim C4, witness: the table theorem applied to a string outside the
enumeration. -/
theorem c4_witness : getProgressPercentage "renovating" = 0 :=
  c4_progress_table.2 "renovating" (by decide)

/-! ## Claim C5 -/

/-- Claim C5, counterexample: an active property owned by user 2 and
shared with user 1 satisfies the spec union visibility filter for user 1,
yet GET /api/properties for user 1 does not return it, refuting the claim
that the property list applies the union filter. -/
theorem c5_counterexample :
    specPortfolioFilter 1 sharedOnlyProperty = true ∧
    sharedOnlyProperty ∉ listProperties 1 [sharedOnlyProperty] := by decide

/-- Claim C5, amended: the dashboard overview query applies exactly the
union visibility filter of the spec, but the property list operation
filters owner-only: it returns precisely the active properties the caller
owns, excluding properties merely shared with the caller. -/
theorem c5_visibility_filters :
    (∀ (userId : Nat) (p : PropertyRec),
      overviewPropertyFilter userId p = specPortfolioFilter userId p) ∧
    (∀ (userId : Nat) (db : List PropertyRec) (p : PropertyRec),
      p ∈ listProperties userId db ↔ p ∈ db ∧ p.owner = userId ∧ p.isActive = true) := by
  refine ⟨fun _ _ => rfl, fun userId db p => ?_⟩
  simp [listProperties, propertiesListFilter, List.mem_filter, and_assoc]

/-! ## Claim C7 -/

/-- Claim C7: the overview counts overdueSteps=3, upcomingSteps=0,
overdueEvents=0 yield exactly one alert, of type warning, priority high
and count 3; in general the alert types appear as a sublist of the fixed
order warning, info, error, and every emitted alert has a positive
count. -/
theorem c7_alerts :
    dashboardAlerts 3 0 0 =
      [{ type := "warning", title := "Étapes en retard",
         message := "Vous avez 3 étape(s) en retard", count := 3, priority := "high" }] ∧
    (∀ o u e : Nat, ((dashboardAlerts o u e).map Alert.type).Sublist
      ["warning", "info", "error"]) ∧
    (∀ o u e : Nat, ∀ a ∈ dashboardAlerts o u e, 0 < a.count) := by
  refine ⟨by decide, ?_, ?_⟩
  · intro o u e
    unfold dashboardAlerts
    split_ifs <;> simp
  · intro o u e a ha
    unfold dashboardAlerts at ha
    split_ifs at ha with h1 h2 h3 <;>
      simp only [List.mem_append, List.mem_singleton, List.not_mem_nil, or_false,
        false_or, or_assoc] at ha <;>
      first
      | exact ha.elim
      | (rcases ha with rfl | rfl | rfl <;> assumption)

/-- Claim C7, witness: the positive-count part applied to the warning
alert emitted for counts 3, 0, 0. -/
theorem c7_witness :
    0 < ({ type := "warning", title := "Étapes en retard",
           message := "Vous avez 3 étape(s) en retard", count := 3,
           priority := "high" } : Alert).count :=
  c7_alerts.2.2 3 0 0 _ (by decide)

/-! ## Claim C9 -/

/-- Claim C9: whenever every stored property status belongs to the schema
enumeration, the overview summary counters activeProperties and
completedPurchases are both 0, since they test French status names that
the enumeration does not contain. -/
theorem c9_summary_counters_zero (props : List PropertyRec)
    (h : ∀ p ∈ props, p.status ∈ propertyStatusEnum) :
    summaryActiveProperties props = 0 ∧ summaryCompletedPurchases props = 0 := by
  constructor
  · rw [summaryActiveProperties, List.length_eq_zero, List.filter_eq_nil_iff]
    intro p hp
    have hst := h p hp
    simp only [propertyStatusEnum, List.mem_cons, List.not_mem_nil, or_false] at hst
    rcases hst with h' | h' | h' | h' | h' | h' | h' | h' <;> rw [h'] <;> decide
  · rw [summaryCompletedPurchases, List.length_eq_zero, List.filter_eq_nil_iff]
    intro p hp
    have hst := h p hp
    simp only [propertyStatusEnum, List.mem_cons, List.not_mem_nil, or_false] at hst
    rcases hst with h' | h' | h' | h' | h' | h' | h' | h' <;> rw [h'] <;> decide

/-- Claim C9, witness: the counter theorem applied to a one-element store
whose property has status searching. -/
theorem c9_witness :
    summaryActiveProperties [ownedSearchingProperty] = 0 ∧
    summaryCompletedPurchases [ownedSearchingProperty] = 0 :=
  c9_summary_counters_zero [ownedSearchingProperty] (by decide)

/-! ## Claim C6 -/

/-- Claim C6, counterexample: for the store holding one active step with
cost entries notary 500 and notary 0, no aggregate row for notary has
count 1, refuting the claim that the zero-amount entry is excluded. -/
theorem c6_counterexample :
    ¬ ∃ r ∈ costsByCategory notaryCostsDb,
      r.category = "notary" ∧ r.totalAmount = 500 ∧ r.count = 1 := by decide

/-- Claim C6, amended: the match stage filters whole steps, not entries:
a step qualifies when some entry has amount strictly greater than 0, and
the unwind stage then emits all of its entries.  For the entries
notary 500 and notary 0 the notary row therefore has total 500 and
count 2. -/
theorem c6_cost_aggregate :
    costsByCategory notaryCostsDb =
      [{ category := "notary", totalAmount := 500, count := 2 }] := by decide

/-! ## Claim C8 -/

/-- Claim C8, counterexample: for user 1, a stored document under a
property owned by user 2 and not shared with user 1 is answered with
Forbidden, not with the NotFound produced for an unresolved id, refuting
the claim that the two cases are indistinguishable for every single-entity
read. -/
theorem c8_counterexample :
    getDocumentById 1 [foreignDocument] 5 = ReadResult.forbidden ∧
    getDocumentById 1 [foreignDocument] 5 ≠ ReadResult.notFound ∧
    getDocumentById 1 [foreignDocument] 99 = ReadResult.notFound := by decide

/-- Claim C8, amended: the property read folds visibility into the query
and thus never answers Forbidden (missing and out-of-scope ids are both
NotFound), while the document and calendar event reads answer Forbidden
whenever the id resolves to a record outside the caller's visibility,
distinguishable from the NotFound of an unresolved id. -/
theorem c8_read_taxonomy :
    (∀ (userId : Nat) (db : List PropertyRec) (id : Nat),
      getPropertyById userId db id ≠ ReadResult.forbidden) ∧
    (∀ (userId : Nat) (db : List DocumentRec) (id : Nat) (d : DocumentRec),
      db.find? (fun x => x.id == id) = some d →
      d.propertyOwner ≠ userId → d.sharedWith.contains userId = false →
      getDocumentById userId db id = ReadResult.forbidden) ∧
    (∀ (userId : Nat) (db : List CalendarEventRec) (id : Nat) (e : CalendarEventRec),
      db.find? (fun x => x.id == id) = some e →
      e.owner ≠ userId → e.sharedWith.contains userId = false →
      getCalendarEventById userId db id = ReadResult.forbidden) := by
  refine ⟨?_, ?_, ?_⟩
  · intro userId db id
    unfold getPropertyById
    cases db.find? (fun p => p.id == id &&
        ((p.owner == userId) || p.sharedWith.contains userId)) <;> simp
  · intro userId db id d hf ho hs
    have hs' : userId ∉ d.sharedWith := by simpa using hs
    unfold getDocumentById
    rw [hf]
    simp [ho, hs']
  · intro userId db id e hf ho hs
    have hs' : userId ∉ e.sharedWith := by simpa using hs
    unfold getCalendarEventById
    rw [hf]
    simp [ho, hs']

/-- Claim C8, witness: the amended theorem applied to user 1 reading the
foreign document and the foreign calendar event. -/
theorem c8_witness :
    getPropertyById 1 [sharedOnlyProperty] 7 ≠ ReadResult.forbidden ∧
    getDocumentById 1 [foreignDocument] 5 = ReadResult.forbidden ∧
    getCalendarEventById 1 [foreignEvent] 6 = ReadResult.forbidden :=
  ⟨c8_read_taxonomy.1 1 [sharedOnlyProperty] 7,
   c8_read_taxonomy.2.1 1 [foreignDocument] 5 foreignDocument rfl (by decide) rfl,
   c8_read_taxonomy.2.2 1 [foreignEvent] 6 foreignEvent rfl (by decide) rfl⟩

/-! ## Claim C10 -/

/-- Claim C10: for every non-empty photo list, the save middleware leaves
exactly one photo marked primary; moreover whenever the incoming list does
not already have exactly one marked photo (none marked, or several
marked), the first photo of the list is the one marked primary
afterwards. -/
theorem c10_primary_photo_invariant (photos : List Photo) (h : photos ≠ []) :
    ((propertyPreSave photos).filter (fun p => p.isPrimary)).length = 1 ∧
    ((photos.filter (fun p => p.isPrimary)).length ≠ 1 →
      (propertyPreSave photos).head?.map Photo.isPrimary = some true) := by
  obtain ⟨p, rest, rfl⟩ := List.exists_cons_of_ne_nil h
  by_cases h0 : ((p :: rest).filter (fun q => q.isPrimary)).length = 0
  · have hall := List.filter_eq_nil_iff.mp (List.length_eq_zero.mp h0)
    have hrest : rest.filter (fun q => q.isPrimary) = [] :=
      List.filter_eq_nil_iff.mpr (fun a ha => hall a (List.mem_cons_of_mem p ha))
    have hres : propertyPreSave (p :: rest) = { p with isPrimary := true } :: rest := by
      simp [propertyPreSave, h0]
    rw [hres]
    constructor
    · rw [List.filter_cons_of_pos (by rfl), hrest]
      rfl
    · intro _
      rfl
  · by_cases h1 : ((p :: rest).filter (fun q => q.isPrimary)).length = 1
    · have hres : propertyPreSave (p :: rest) = p :: rest := by
        simp [propertyPreSave, h0, h1]
      rw [hres]
      exact ⟨h1, fun hne => absurd h1 hne⟩
    · have h2 : 1 < ((p :: rest).filter (fun q => q.isPrimary)).length := by omega
      have hres : propertyPreSave (p :: rest) =
          (p :: rest).mapIdx (fun i q => { q with isPrimary := i == 0 }) := by
        simp [propertyPreSave, h0, h2]
      have htail : (rest.mapIdx (fun i q =>
          { q with isPrimary := (i + 1 : Nat) == 0 })).filter (fun q => q.isPrimary) = [] :=
        filter_isPrimary_mapIdx_eq_nil rest _ (fun i q => by simp)
      rw [hres, List.mapIdx_cons]
      constructor
      · rw [List.filter_cons_of_pos (by rfl), htail]
        rfl
      · intro _
        rfl

/-- Claim C10, witness: the invariant applied to the concrete photo list
with two of three photos marked primary. -/
theorem c10_witness :
    ((propertyPreSave twoPrimaryPhotos).filter (fun p => p.isPrimary)).length = 1 ∧
    ((twoPrimaryPhotos.filter (fun p => p.isPrimary)).length ≠ 1 →
      (propertyPreSave twoPrimaryPhotos).head?.map Photo.isPrimary = some true) :=
  c10_primary_photo_invariant twoPrimaryPhotos (by decide)

/-! ## Claim C3 -/

/-- Claim C3, counterexample: with limit 8 over 4 steps, 4 documents,
2 events and 1 property, all inside the window with pairwise distinct
timestamps (days 1 to 11), the feed holds 7 records, not 8: the per-source
cap of limit/4 = 2 cuts the steps and the documents to 2 rows each before
the global sort ever sees them. -/
theorem c3_counterexample :
    (recentActivity 8 0 windowSteps windowDocs windowEvents windowProps).length ≠ 8 := by
  decide

/-- Claim C3, amended: for a recent-activity request with limit 8 over
sources of 4 steps, 4 documents, 2 events and 1 property, all active and
inside the time window with pairwise distinct timestamps, the per-source
queries capped at limit/4 = 2 leave 2 + 2 + 2 + 1 = 7 candidate records,
so the returned feed contains exactly 7 activity records, in strictly
descending timestamp order. -/
theorem c3_recent_activity (since : Int)
    (steps : List RecentStep) (docs : List RecentDoc)
    (events : List RecentEvent) (props : List RecentProp)
    (hs : steps.length = 4) (hd : docs.length = 4)
    (he : events.length = 2) (hp : props.length = 1)
    (hsw : ∀ s ∈ steps, s.isActive = true ∧ since ≤ s.updatedAt)
    (hdw : ∀ d ∈ docs, d.isActive = true ∧ since ≤ d.createdAt)
    (hew : ∀ e ∈ events, e.isActive = true ∧ since ≤ e.createdAt)
    (hpw : ∀ p ∈ props, p.isActive = true ∧ since ≤ p.createdAt)
    (hnd : (steps.map RecentStep.updatedAt ++ docs.map RecentDoc.createdAt ++
        events.map RecentEvent.createdAt ++ props.map RecentProp.createdAt).Nodup) :
    (recentActivity 8 since steps docs events props).length = 7 ∧
    (recentActivity 8 since steps docs events props).Pairwise
      (fun a b => b.date < a.date) := by
  have hfs : steps.filter (fun s => s.isActive && decide (since ≤ s.updatedAt)) = steps :=
    List.filter_eq_self.mpr (fun s hmem => by
      obtain ⟨h1, h2⟩ := hsw s hmem
      simp [h1, h2])
  have hfd : docs.filter (fun d => d.isActive && decide (since ≤ d.createdAt)) = docs :=
    List.filter_eq_self.mpr (fun d hmem => by
      obtain ⟨h1, h2⟩ := hdw d hmem
      simp [h1, h2])
  have hfe : events.filter (fun e => e.isActive && decide (since ≤ e.createdAt)) = events :=
    List.filter_eq_self.mpr (fun e hmem => by
      obtain ⟨h1, h2⟩ := hew e hmem
      simp [h1, h2])
  have hfp : props.filter (fun p => p.isActive && decide (since ≤ p.createdAt)) = props :=
    List.filter_eq_self.mpr (fun p hmem => by
      obtain ⟨h1, h2⟩ := hpw p hmem
      simp [h1, h2])
  have hcand : recentActivityCandidates 8 since steps docs events props =
      ((List.insertionSort stepUpdatedGE steps).take (8 / 4)).map stepToActivity ++
      ((List.insertionSort docCreatedGE docs).take (8 / 4)).map docToActivity ++
      ((List.insertionSort eventCreatedGE events).take (8 / 4)).map eventToActivity ++
      ((List.insertionSort propCreatedGE props).take (8 / 4)).map propToActivity := by
    simp only [recentActivityCandidates, hfs, hfd, hfe, hfp]
  have hlenCand : (recentActivityCandidates 8 since steps docs events props).length = 7 := by
    rw [hcand]
    simp only [List.length_append, List.length_map, List.length_take,
      List.length_insertionSort, hs, hd, he, hp]
    decide
  have hsortlen : (List.insertionSort activityDateGE
      (recentActivityCandidates 8 since steps docs events props)).length = 7 := by
    rw [List.length_insertionSort, hlenCand]
  have htake : (List.insertionSort activityDateGE
      (recentActivityCandidates 8 since steps docs events props)).take 8 =
      List.insertionSort activityDateGE
        (recentActivityCandidates 8 since steps docs events props) :=
    List.take_of_length_le (by rw [hsortlen]; omega)
  have hdates : (recentActivityCandidates 8 since steps docs events props).map Activity.date =
      ((List.insertionSort stepUpdatedGE steps).take (8 / 4)).map RecentStep.updatedAt ++
      ((List.insertionSort docCreatedGE docs).take (8 / 4)).map RecentDoc.createdAt ++
      ((List.insertionSort eventCreatedGE events).take (8 / 4)).map RecentEvent.createdAt ++
      ((List.insertionSort propCreatedGE props).take (8 / 4)).map RecentProp.createdAt := by
    rw [hcand]
    simp only [List.map_append, List.map_map, date_comp_stepToActivity,
      date_comp_docToActivity, date_comp_eventToActivity, date_comp_propToActivity]
  have hsubS : (((List.insertionSort stepUpdatedGE steps).take (8 / 4)).map
      RecentStep.updatedAt).Subperm (steps.map RecentStep.updatedAt) :=
    (((List.take_sublist _ _).map RecentStep.updatedAt).subperm).trans
      (((List.perm_insertionSort stepUpdatedGE steps).map RecentStep.updatedAt).subperm)
  have hsubD : (((List.insertionSort docCreatedGE docs).take (8 / 4)).map
      RecentDoc.createdAt).Subperm (docs.map RecentDoc.createdAt) :=
    (((List.take_sublist _ _).map RecentDoc.createdAt).subperm).trans
      (((List.perm_insertionSort docCreatedGE docs).map RecentDoc.createdAt).subperm)
  have hsubE : (((List.insertionSort eventCreatedGE events).take (8 / 4)).map
      RecentEvent.createdAt).Subperm (events.map RecentEvent.createdAt) :=
    (((List.take_sublist _ _).map RecentEvent.createdAt).subperm).trans
      (((List.perm_insertionSort eventCreatedGE events).map RecentEvent.createdAt).subperm)
  have hsubP : (((List.insertionSort propCreatedGE props).take (8 / 4)).map
      RecentProp.createdAt).Subperm (props.map RecentProp.createdAt) :=
    (((List.take_sublist _ _).map RecentProp.createdAt).subperm).trans
      (((List.perm_insertionSort propCreatedGE props).map RecentProp.createdAt).subperm)
  have hndcand : ((recentActivityCandidates 8 since steps docs events props).map
      Activity.date).Nodup := by
    refine nodup_of_subperm ?_ hnd
    rw [hdates]
    exact subperm_append_both (subperm_append_both (subperm_append_both hsubS hsubD) hsubE) hsubP
  have hndsorted : ((List.insertionSort activityDateGE
      (recentActivityCandidates 8 since steps docs events props)).map Activity.date).Nodup :=
    (((List.perm_insertionSort activityDateGE _).map Activity.date).nodup_iff).mpr hndcand
  have hsorted : List.Pairwise activityDateGE (List.insertionSort activityDateGE
      (recentActivityCandidates 8 since steps docs events props)) :=
    List.sorted_insertionSort activityDateGE _
  have hne : List.Pairwise (fun a b : Activity => a.date ≠ b.date)
      (List.insertionSort activityDateGE
        (recentActivityCandidates 8 since steps docs events props)) :=
    List.pairwise_map.mp hndsorted
  constructor
  · rw [recentActivity, htake, hsortlen]
  · rw [recentActivity, htake]
    exact (hsorted.and hne).imp (fun h => lt_of_le_of_ne h.1 h.2.symm)

/-- Claim C3, witness: the amended theorem applied to the concrete window
of 11 records timestamped on days 1 to 11. -/
theorem c3_witness :
    (recentActivity 8 0 windowSteps windowDocs windowEvents windowProps).length = 7 ∧
    (recentActivity 8 0 windowSteps windowDocs windowEvents windowProps).Pairwise
      (fun a b => b.date < a.date) :=
  c3_recent_activity 0 windowSteps windowDocs windowEvents windowProps rfl rfl rfl rfl
    (by decide) (by decide) (by decide) (by decide) (by decide)

end Appart
